import Mathlib

/-!
Shallow embedding of `api-test.py`, a conformance test harness for a single
HTTP JSON API endpoint, together with theorems settling the specification
claims about it.

Modelling conventions:
* Parsed JSON documents are values of the inductive type `Json`.
* A network call's result is a `NetOutcome`: a timeout, another transport
  error (`requests.exceptions.RequestException`), or a response carrying a
  status code, a body (`some j` when the body text parses as JSON `j`,
  `none` when `response.json()` would raise), and response headers.
* Python expression evaluation that can raise is embedded in
  `Except PyExc`; the `try/except` blocks of each test function become an
  explicit handler applied to the result.  Following requests >= 2.27,
  the JSON-decode error raised by `response.json()` is a subclass of
  `RequestException` and is therefore caught by the generic
  `except requests.exceptions.RequestException` clauses.
* Each test function sends exactly one HTTP request; the external network
  collaborator is a function `HttpRequest -> NetOutcome`, and the request
  each scenario builds (method, url, headers, body, timeout) is embedded
  verbatim, including the fixed `timeout=30` argument.
* `print` calls are pure console output and are dropped; the detail string
  passed to `print_result` is retained in the `Verdict` so that claims
  about detail strings can be stated.
-/

/-- A parsed JSON document, as produced by `response.json()`. -/
inductive Json where
  | null
  | bool (b : Bool)
  | num (n : Int)
  | str (s : String)
  | arr (elems : List Json)
  | obj (fields : List (String × Json))

/-- Python exceptions that the embedded code can raise. -/
inductive PyExc where
  | timeout (msg : String)
  | requestError (msg : String)
  | jsonDecodeError
  | typeError
  | keyError (k : String)
  | attributeError
deriving DecidableEq

/-- The `str()` rendering of an exception, used inside f-string details. -/
def excStr : PyExc → String
  | .timeout m => m
  | .requestError m => m
  | .jsonDecodeError => "Expecting value"
  | .typeError => "TypeError"
  | .keyError k => k
  | .attributeError => "AttributeError"

/-- Whether an exception is an instance of `requests.exceptions.RequestException`.
`Timeout` is a subclass; with requests >= 2.27 so is the JSON-decode error
raised by `response.json()`. -/
def isRequestException : PyExc → Bool
  | .timeout _ => true
  | .requestError _ => true
  | .jsonDecodeError => true
  | _ => false

/-- Whether the first character list starts the second. -/
def leadsWith : List Char → List Char → Bool
  | [], _ => true
  | _ :: _, [] => false
  | a :: as, b :: bs => a == b && leadsWith as bs

/-- Whether the first character list occurs contiguously in the second. -/
def occursIn (needle : List Char) : List Char → Bool
  | [] => needle.isEmpty
  | c :: t => leadsWith needle (c :: t) || occursIn needle t

/-- Python substring test `sub in s` on strings. -/
def pyStrIn (sub s : String) : Bool :=
  occursIn sub.data s.data

/-- Python equality `x == e` between a string and a JSON value
(used by list membership). -/
def strEqJson (x : String) : Json → Bool
  | .str t => x == t
  | _ => false

/-- Python membership `x in j` for a string `x`: key membership on a dict,
element membership on a list, substring test on a string, and a
`TypeError` on any other value. -/
def pyIn (x : String) : Json → Except PyExc Bool
  | .obj fs => .ok (fs.any (fun p => x == p.1))
  | .arr xs => .ok (xs.any (strEqJson x))
  | .str t => .ok (pyStrIn x t)
  | _ => .error .typeError

/-- Python subscription `j[k]` with a string key: dict lookup (a missing
key raises `KeyError`), `TypeError` on anything else. -/
def pySubscript (j : Json) (k : String) : Except PyExc Json :=
  match j with
  | .obj fs =>
    match fs.lookup k with
    | some v => .ok v
    | none => .error (.keyError k)
  | _ => .error .typeError

/-- Python `j.get(k, default)`: defined on dicts only; any other value has
no `get` attribute and raises `AttributeError`. -/
def pyGet (j : Json) (k : String) (dflt : Json) : Except PyExc Json :=
  match j with
  | .obj fs => .ok ((fs.lookup k).getD dflt)
  | _ => .error .attributeError

/-- Python slicing `v[:50]`: defined on strings and lists, `TypeError`
otherwise. -/
def pySlice50 : Json → Except PyExc Json
  | .str s => .ok (.str (s.take 50))
  | .arr xs => .ok (.arr (xs.take 50))
  | _ => .error .typeError

mutual

/-- Python `repr()` of a parsed JSON value. -/
def reprJson : Json → String
  | .null => "None"
  | .bool true => "True"
  | .bool false => "False"
  | .num n => toString n
  | .str s => "\x27" ++ s ++ "\x27"
  | .arr xs => "[" ++ reprJsonElems xs ++ "]"
  | .obj fs => "\x7b" ++ reprJsonFields fs ++ "\x7d"

/-- Comma-separated `repr()` of list elements. -/
def reprJsonElems : List Json → String
  | [] => ""
  | [x] => reprJson x
  | x :: xs => reprJson x ++ ", " ++ reprJsonElems xs

/-- Comma-separated `repr()` of dict entries. -/
def reprJsonFields : List (String × Json) → String
  | [] => ""
  | [(k, v)] => "\x27" ++ k ++ "\x27: " ++ reprJson v
  | (k, v) :: fs => "\x27" ++ k ++ "\x27: " ++ reprJson v ++ ", " ++ reprJsonFields fs

end

/-- Python `str()` of a parsed JSON value, as interpolated by f-strings:
a string renders as itself, containers render via `repr`. -/
def pyStr : Json → String
  | .str s => s
  | j => reprJson j

/-- The body attached to an outgoing request: a structured payload passed
via `json=`, raw text passed via `data=`, or no body (the OPTIONS call). -/
inductive ReqBody where
  | jsonPayload (j : Json)
  | raw (s : String)
  | noBody

/-- An outgoing HTTP request exactly as handed to the requests library. -/
structure HttpRequest where
  method : String
  url : String
  headers : List (String × String)
  body : ReqBody
  timeout : Nat

/-- The result of a network call, as seen by the caller of
`requests.post` / `requests.options`. -/
inductive NetOutcome where
  | timeout (msg : String)
  | connError (msg : String)
  | response (status : Nat) (body : Option Json) (headers : List (String × String))

/-- Entering the `requests.post(...)` call: a timeout or transport error
raises, a response is returned. -/
def httpOutcome : NetOutcome → Except PyExc (Nat × Option Json × List (String × String))
  | .timeout m => .error (.timeout m)
  | .connError m => .error (.requestError m)
  | .response s b h => .ok (s, b, h)

/-- `response.json()`: returns the parsed document or raises the
JSON-decode error. -/
def respJson : Option Json → Except PyExc Json
  | some j => .ok j
  | none => .error .jsonDecodeError

/-- The default header dict built inside `make_request`.  Header values are
`Option String` because the requests library treats a `None`-valued header
as an instruction to omit that header from the wire. -/
def defaultHeaders (apiKey : String) : List (String × Option String) :=
  [("Content-Type", some "application/json"), ("X-Api-Key", some apiKey)]

/-- Python `dict.update`: existing keys are overwritten in place, new keys
are appended in order. -/
def dictUpdate (base upd : List (String × Option String)) : List (String × Option String) :=
  upd.foldl
    (fun acc kv =>
      if acc.any (fun p => p.1 == kv.1) then
        acc.map (fun p => if p.1 == kv.1 then kv else p)
      else acc ++ [kv])
    base

/-- The headers actually sent on the wire: requests drops every header
whose value is `None`. -/
def sentHeaders (hs : List (String × Option String)) : List (String × String) :=
  hs.filterMap (fun kv => match kv.2 with | some v => some (kv.1, v) | none => none)

/-- `make_request`: builds the POST request with the default headers,
updated by the optional per-scenario override, a `json=payload` body and
`timeout=30`. -/
def makeRequest (url apiKey : String) (payload : Json)
    (headersOverride : Option (List (String × Option String))) : HttpRequest :=
  let hs := match headersOverride with
    | some o => dictUpdate (defaultHeaders apiKey) o
    | none => defaultHeaders apiKey
  { method := "POST", url := url, headers := sentHeaders hs,
    body := .jsonPayload payload, timeout := 30 }

/-- The outcome of one test function: a returned pass/fail verdict with its
detail string, or an exception that escaped the function's handlers. -/
inductive TestResult where
  | verdict (passed : Bool) (detail : String)
  | raised (e : PyExc)
deriving DecidableEq

/-- Whether a test outcome counts as a pass (an escaped exception never
does). -/
def resultPassed : TestResult → Bool
  | .verdict b _ => b
  | .raised _ => false

/-- The handler chain of `test_success_request`: `except Timeout`, then
`except RequestException`, then `except json.JSONDecodeError`; anything
else escapes. -/
def applySuccessHandlers : Except PyExc (Bool × String) → TestResult
  | .ok (b, d) => .verdict b d
  | .error (.timeout _) => .verdict false "Request timed out"
  | .error e =>
    if isRequestException e then .verdict false ("Request failed: " ++ excStr e)
    else if e == .jsonDecodeError then .verdict false ("Invalid JSON response: " ++ excStr e)
    else .raised e

/-- The handler chain of every other test function: a single
`except requests.exceptions.RequestException`; anything else escapes. -/
def applyGenericHandler : Except PyExc (Bool × String) → TestResult
  | .ok (b, d) => .verdict b d
  | .error e =>
    if isRequestException e then .verdict false ("Request failed: " ++ excStr e)
    else .raised e

/-- The payload of `test_success_request`. -/
def successPayload : Json :=
  .obj [("threadId", .str "test-thread-001"),
        ("messages", .arr [.obj [("role", .str "user"),
                                 ("content", .str "Say \x27Hello test\x27 and nothing else.")]])]

/-- The request `test_success_request` sends (via `make_request`). -/
def successReq (url apiKey : String) : HttpRequest :=
  makeRequest url apiKey successPayload none

/-- Try-block of `test_success_request` after the response arrives. -/
def successBody (o : NetOutcome) : Except PyExc (Bool × String) := do
  let (status, body, _hdrs) ← httpOutcome o
  if status == 200 then
    let data ← respJson body
    let hasA ← pyIn "assistant" data
    let cond ← if hasA then do
        let av ← pySubscript data "assistant"
        pyIn "content" av
      else pure false
    if cond then do
      let av ← pySubscript data "assistant"
      let cv ← pySubscript av "content"
      let ex ← pySlice50 cv
      pure (true, "Got response: " ++ pyStr ex ++ "...")
    else
      pure (false, "Missing \x27assistant.content\x27 in response")
  else
    pure (false, "Expected 200, got " ++ toString status)

/-- `test_success_request` as a function of the network collaborator. -/
def successEval (o : NetOutcome) : TestResult :=
  applySuccessHandlers (successBody o)

/-- The header dict the body-less and malformed-JSON tests build by hand. -/
def plainJsonHeaders (apiKey : String) : List (String × String) :=
  [("Content-Type", "application/json"), ("X-Api-Key", apiKey)]

/-- The request `test_missing_body` sends: an empty raw body. -/
def missingBodyReq (url apiKey : String) : HttpRequest :=
  { method := "POST", url := url, headers := plainJsonHeaders apiKey,
    body := .raw "", timeout := 30 }

/-- Try-block of `test_missing_body`. -/
def missingBodyBody (o : NetOutcome) : Except PyExc (Bool × String) := do
  let (status, body, _hdrs) ← httpOutcome o
  if status == 400 then
    let data ← respJson body
    let hasErr ← pyIn "error" data
    if hasErr then do
      let ev ← pySubscript data "error"
      pure (true, "Got expected error: " ++ pyStr ev)
    else
      pure (false, "Expected error message in response")
  else
    pure (false, "Expected 400, got " ++ toString status)

/-- `test_missing_body`'s evaluation of a network outcome. -/
def missingBodyEval (o : NetOutcome) : TestResult :=
  applyGenericHandler (missingBodyBody o)

/-- The request `test_invalid_json` sends: a malformed raw body. -/
def invalidJsonReq (url apiKey : String) : HttpRequest :=
  { method := "POST", url := url, headers := plainJsonHeaders apiKey,
    body := .raw "\x7binvalid json", timeout := 30 }

/-- Try-block of `test_invalid_json`.  Both branches of the inner test
return `True`: the scenario passes on any 400 whose body parses. -/
def invalidJsonBody (o : NetOutcome) : Except PyExc (Bool × String) := do
  let (status, body, _hdrs) ← httpOutcome o
  if status == 400 then
    let data ← respJson body
    let hasErr ← pyIn "error" data
    let cond ← if hasErr then do
        let ev ← pySubscript data "error"
        pyIn "Invalid JSON" ev
      else pure false
    if cond then do
      let ev ← pySubscript data "error"
      pure (true, "Got expected error: " ++ pyStr ev)
    else do
      let g ← pyGet data "error" (.str "unknown")
      pure (true, "Got 400 with error: " ++ pyStr g)
  else
    pure (false, "Expected 400, got " ++ toString status)

/-- `test_invalid_json`'s evaluation of a network outcome. -/
def invalidJsonEval (o : NetOutcome) : TestResult :=
  applyGenericHandler (invalidJsonBody o)

/-- Shared try-block shape of `test_missing_thread_id`,
`test_messages_not_array` and `test_empty_messages`: pass on a 400 whose
`error` value contains the scenario's substring. -/
def fieldErrBody (sub : String) (o : NetOutcome) : Except PyExc (Bool × String) := do
  let (status, body, _hdrs) ← httpOutcome o
  if status == 400 then
    let data ← respJson body
    let hasErr ← pyIn "error" data
    let cond ← if hasErr then do
        let ev ← pySubscript data "error"
        pyIn sub ev
      else pure false
    if cond then do
      let ev ← pySubscript data "error"
      pure (true, "Got expected error: " ++ pyStr ev)
    else do
      let g ← pyGet data "error" (.str "unknown")
      pure (false, "Unexpected error: " ++ pyStr g)
  else
    pure (false, "Expected 400, got " ++ toString status)

/-- The payload of `test_missing_thread_id` (no `threadId`). -/
def threadIdPayload : Json :=
  .obj [("messages", .arr [.obj [("role", .str "user"), ("content", .str "Hello")]])]

/-- The request `test_missing_thread_id` sends. -/
def missingThreadIdReq (url apiKey : String) : HttpRequest :=
  makeRequest url apiKey threadIdPayload none

/-- `test_missing_thread_id`'s evaluation of a network outcome. -/
def missingThreadIdEval (o : NetOutcome) : TestResult :=
  applyGenericHandler (fieldErrBody "threadId" o)

/-- The payload of `test_messages_not_array` (`messages` is a string). -/
def notArrayPayload : Json :=
  .obj [("threadId", .str "test-thread"), ("messages", .str "not an array")]

/-- The request `test_messages_not_array` sends. -/
def notArrayReq (url apiKey : String) : HttpRequest :=
  makeRequest url apiKey notArrayPayload none

/-- `test_messages_not_array`'s evaluation of a network outcome. -/
def notArrayEval (o : NetOutcome) : TestResult :=
  applyGenericHandler (fieldErrBody "array" o)

/-- The payload of `test_empty_messages` (`messages` is `[]`). -/
def emptyMessagesPayload : Json :=
  .obj [("threadId", .str "test-thread"), ("messages", .arr [])]

/-- The request `test_empty_messages` sends. -/
def emptyMessagesReq (url apiKey : String) : HttpRequest :=
  makeRequest url apiKey emptyMessagesPayload none

/-- `test_empty_messages`'s evaluation of a network outcome. -/
def emptyMessagesEval (o : NetOutcome) : TestResult :=
  applyGenericHandler (fieldErrBody "empty" o)

/-- The payload of `test_missing_api_key`. -/
def missingKeyPayload : Json :=
  .obj [("threadId", .str "test-thread"),
        ("messages", .arr [.obj [("role", .str "user"), ("content", .str "Hello")]])]

/-- The request `test_missing_api_key` sends: the `X-Api-Key` header is
deliberately omitted. -/
def missingKeyReq (url _apiKey : String) : HttpRequest :=
  { method := "POST", url := url, headers := [("Content-Type", "application/json")],
    body := .jsonPayload missingKeyPayload, timeout := 30 }

/-- Try-block shared by the two authentication tests: pass iff 403, the
body is never inspected. -/
def authBody (o : NetOutcome) : Except PyExc (Bool × String) := do
  let (status, _body, _hdrs) ← httpOutcome o
  if status == 403 then
    pure (true, "Got expected 403 Forbidden")
  else
    pure (false, "Expected 403, got " ++ toString status)

/-- `test_missing_api_key`'s evaluation of a network outcome. -/
def missingKeyEval (o : NetOutcome) : TestResult :=
  applyGenericHandler (authBody o)

/-- The payload of `test_invalid_api_key`. -/
def invalidKeyPayload : Json :=
  .obj [("threadId", .str "test-thread"),
        ("messages", .arr [.obj [("role", .str "user"), ("content", .str "Hello")]])]

/-- The request `test_invalid_api_key` sends: `make_request` with the
hard-coded bogus credential in place of the ambient one. -/
def invalidKeyReq (url _apiKey : String) : HttpRequest :=
  makeRequest url "invalid-api-key-12345" invalidKeyPayload none

/-- `test_invalid_api_key`'s evaluation of a network outcome. -/
def invalidKeyEval (o : NetOutcome) : TestResult :=
  applyGenericHandler (authBody o)

/-- The request `test_cors_preflight` sends: an OPTIONS call with no body. -/
def corsReq (url _apiKey : String) : HttpRequest :=
  { method := "OPTIONS", url := url,
    headers := [("Access-Control-Request-Method", "POST"),
                ("Origin", "http://localhost:5173")],
    body := .noBody, timeout := 30 }

/-- `response.headers.get(k, "")`: requests response headers are looked up
case-insensitively. -/
def headerGet (hs : List (String × String)) (k : String) : String :=
  match hs.find? (fun p => p.1.toLower == k.toLower) with
  | some p => p.2
  | none => ""

/-- Try-block of `test_cors_preflight`. -/
def corsBody (o : NetOutcome) : Except PyExc (Bool × String) := do
  let (status, _body, hdrs) ← httpOutcome o
  if status == 200 then
    let corsOrigin := headerGet hdrs "Access-Control-Allow-Origin"
    let corsMethods := headerGet hdrs "Access-Control-Allow-Methods"
    if !corsOrigin.isEmpty && !corsMethods.isEmpty then
      pure (true, "Origin: " ++ corsOrigin ++ ", Methods: " ++ corsMethods)
    else
      pure (false, "Missing CORS headers in response")
  else
    pure (false, "Expected 200, got " ++ toString status)

/-- `test_cors_preflight`'s evaluation of a network outcome. -/
def corsEval (o : NetOutcome) : TestResult :=
  applyGenericHandler (corsBody o)

/-- The type of a test function: base URL, ambient credential, network
collaborator. -/
def TestFun := String → String → (HttpRequest → NetOutcome) → TestResult

/-- `test_success_request`. -/
def testSuccessRequest : TestFun := fun url apiKey net =>
  successEval (net (successReq url apiKey))

/-- `test_missing_body`. -/
def testMissingBody : TestFun := fun url apiKey net =>
  missingBodyEval (net (missingBodyReq url apiKey))

/-- `test_invalid_json`. -/
def testInvalidJson : TestFun := fun url apiKey net =>
  invalidJsonEval (net (invalidJsonReq url apiKey))

/-- `test_missing_thread_id`. -/
def testMissingThreadId : TestFun := fun url apiKey net =>
  missingThreadIdEval (net (missingThreadIdReq url apiKey))

/-- `test_messages_not_array`. -/
def testMessagesNotArray : TestFun := fun url apiKey net =>
  notArrayEval (net (notArrayReq url apiKey))

/-- `test_empty_messages`. -/
def testEmptyMessages : TestFun := fun url apiKey net =>
  emptyMessagesEval (net (emptyMessagesReq url apiKey))

/-- `test_missing_api_key`. -/
def testMissingApiKey : TestFun := fun url apiKey net =>
  missingKeyEval (net (missingKeyReq url apiKey))

/-- `test_invalid_api_key`. -/
def testInvalidApiKey : TestFun := fun url apiKey net =>
  invalidKeyEval (net (invalidKeyReq url apiKey))

/-- `test_cors_preflight`. -/
def testCorsPreflight : TestFun := fun url apiKey net =>
  corsEval (net (corsReq url apiKey))

/-- The ordered scenario registry of `run_all_tests`. -/
def registry : List (String × TestFun) :=
  [("Success Request", testSuccessRequest),
   ("Missing Body", testMissingBody),
   ("Invalid JSON", testInvalidJson),
   ("Missing threadId", testMissingThreadId),
   ("Messages Not Array", testMessagesNotArray),
   ("Empty Messages", testEmptyMessages),
   ("Missing API Key", testMissingApiKey),
   ("Invalid API Key", testInvalidApiKey),
   ("CORS Preflight", testCorsPreflight)]

/-- The accumulator of `run_all_tests`: pass/fail counts and the ordered
`(name, passed)` list. -/
structure RunResults where
  passed : Nat
  failed : Nat
  details : List (String × Bool)
deriving DecidableEq

/-- One iteration of the `run_all_tests` loop: a returned verdict is
counted by its boolean; an escaped exception is caught by the
`except Exception` arm and counted as a failure. -/
def recordResult (acc : RunResults) (name : String) (r : TestResult) : RunResults :=
  match r with
  | .verdict true _ =>
    { acc with passed := acc.passed + 1, details := acc.details ++ [(name, true)] }
  | .verdict false _ =>
    { acc with failed := acc.failed + 1, details := acc.details ++ [(name, false)] }
  | .raised _ =>
    { acc with failed := acc.failed + 1, details := acc.details ++ [(name, false)] }

/-- `run_all_tests`. -/
def runAllTests (url apiKey : String) (net : HttpRequest → NetOutcome) : RunResults :=
  registry.foldl (fun acc nf => recordResult acc nf.1 (nf.2 url apiKey net))
    { passed := 0, failed := 0, details := [] }

/-- Python falsiness of `os.environ.get(...)`: the variable is unset or
set to the empty string. -/
def falsy : Option String → Bool
  | none => true
  | some s => s == ""

/-- `get_api_key`: raise unless `API_KEY` is set and non-empty. -/
def getApiKey (apiKeyEnv : Option String) : Except String String :=
  match apiKeyEnv with
  | some k => if k == "" then .error "API_KEY environment variable is not set." else .ok k
  | none => .error "API_KEY environment variable is not set."

/-- `get_api_url`: the `prod` environment reads `PROD_API_URL`, every
other environment value reads `TEST_API_URL`; a falsy value raises. -/
def getApiUrl (env : String) (prodUrl testUrl : Option String) : Except String String :=
  if env == "prod" then
    match prodUrl with
    | some u => if u == "" then .error "PROD_API_URL environment variable is not set." else .ok u
    | none => .error "PROD_API_URL environment variable is not set."
  else
    match testUrl with
    | some u => if u == "" then .error "TEST_API_URL environment variable is not set." else .ok u
    | none => .error "TEST_API_URL environment variable is not set."

/-- The `--test` choices accepted by `parse_args`. -/
def testChoices : List String :=
  ["all", "success", "missing-body", "invalid-json", "missing-threadid",
   "messages-not-array", "empty-messages", "missing-key", "invalid-key", "cors"]

/-- The `--env` choices accepted by `parse_args`. -/
def envChoices : List String := ["prod", "test"]

/-- The `test_map` dispatch table of `main`. -/
def testMap : String → Option TestFun
  | "success" => some testSuccessRequest
  | "missing-body" => some testMissingBody
  | "invalid-json" => some testInvalidJson
  | "missing-threadid" => some testMissingThreadId
  | "messages-not-array" => some testMessagesNotArray
  | "empty-messages" => some testEmptyMessages
  | "missing-key" => some testMissingApiKey
  | "invalid-key" => some testInvalidApiKey
  | "cors" => some testCorsPreflight
  | _ => none

/-- The observable outcome of one process run: the exit code and the
ordered verdicts of the scenarios that executed. -/
structure MainResult where
  code : Nat
  verdicts : List (String × Bool)
deriving DecidableEq

/-- `main`, plus the surrounding process behaviour: `argparse` rejects an
invalid `--env` or `--test` with exit code 2 before anything runs; a
configuration error exits 1 before any scenario runs; full mode exits by
the failure count; single mode exits by the single verdict, and an
exception escaping the single test function ends the interpreter with
exit code 1 and no recorded verdict. -/
def mainRun (env sel : String) (apiKeyEnv prodUrl testUrl : Option String)
    (net : HttpRequest → NetOutcome) : MainResult :=
  if !(envChoices.contains env) then { code := 2, verdicts := [] }
  else if !(testChoices.contains sel) then { code := 2, verdicts := [] }
  else
    match getApiKey apiKeyEnv with
    | .error _ => { code := 1, verdicts := [] }
    | .ok apiKey =>
      match getApiUrl env prodUrl testUrl with
      | .error _ => { code := 1, verdicts := [] }
      | .ok url =>
        if sel == "all" then
          let r := runAllTests url apiKey net
          { code := if r.failed > 0 then 1 else 0, verdicts := r.details }
        else
          match testMap sel with
          | some f =>
            match f url apiKey net with
            | .verdict b _ => { code := if b then 0 else 1, verdicts := [(sel, b)] }
            | .raised _ => { code := 1, verdicts := [] }
          | none => { code := 2, verdicts := [] }

/-- Whether a run is doomed by configuration: the credential is falsy or
the URL source selected by the environment flag is falsy. -/
def configErrB (apiKeyEnv : Option String) (env : String) (prodUrl testUrl : Option String) : Bool :=
  falsy apiKeyEnv || falsy (if env == "prod" then prodUrl else testUrl)

/-- Characterization helper: resolution of one URL source, as the spec
describes it (error exactly on an unset or empty source). -/
def urlFromSource (src : Option String) (msg : String) : Except String String :=
  if falsy src then .error msg else .ok (src.getD "")

/-- Whether an `Except` result is an error. -/
def isErr : Except String String → Bool
  | .error _ => true
  | .ok _ => false

/-- Whether the Python membership test `x in v` evaluates without raising:
it does on dicts, lists and strings, and raises `TypeError` otherwise. -/
def memberCheckOk : Json → Bool
  | .str _ => true
  | .arr _ => true
  | .obj _ => true
  | _ => false

/-- Whether `v[:50]` evaluates without raising. -/
def sliceOk : Json → Bool
  | .str _ => true
  | .arr _ => true
  | _ => false

/-- The boolean value of `x in v` when it does not raise, `false` when it
raises. -/
def pyInTrue (x : String) (v : Json) : Bool :=
  match pyIn x v with
  | .ok b => b
  | .error _ => false

/-- Whether a parsed body is a JSON object carrying the given key. -/
def hasKeyB (j : Json) (k : String) : Bool :=
  match j with
  | .obj fs => fs.any (fun p => k == p.1)
  | _ => false

/-- Ground-truth pass condition of the success scenario: status 200 and a
JSON object whose `assistant` value is an object whose `content` value is
sliceable (a string or array), so the excerpt in the detail string can be
built without raising. -/
def vSuccess (s : Nat) (b : Option Json) : Bool :=
  s == 200 &&
    match b with
    | some (.obj fs) =>
      match fs.lookup "assistant" with
      | some (.obj gs) =>
        match gs.lookup "content" with
        | some cv => sliceOk cv
        | none => false
      | _ => false
    | _ => false

/-- Ground-truth pass condition of the missing-body scenario: status 400
and a JSON object carrying an `error` key; the error value is never
matched against a substring. -/
def vMissingBody (s : Nat) (b : Option Json) : Bool :=
  s == 400 &&
    match b with
    | some (.obj fs) => fs.any (fun p => "error" == p.1)
    | _ => false

/-- Ground-truth pass condition of the invalid-json scenario: status 400
and a JSON object body; the `error` key is not required at all, and when
present its value must merely support the membership test (be a string,
list or dict) for the function to return rather than raise. -/
def vInvalidJson (s : Nat) (b : Option Json) : Bool :=
  s == 400 &&
    match b with
    | some (.obj fs) =>
      match fs.lookup "error" with
      | some ev => memberCheckOk ev
      | none => true
    | _ => false

/-- Ground-truth pass condition of the three field-validation scenarios:
status 400 and a JSON object whose `error` value contains the scenario's
substring under Python's membership test. -/
def vFieldErr (s : Nat) (b : Option Json) (sub : String) : Bool :=
  s == 400 &&
    match b with
    | some (.obj fs) =>
      match fs.lookup "error" with
      | some ev => pyInTrue sub ev
      | none => false
    | _ => false

theorem exceptBind_ok {α β : Type} (a : α) (f : α → Except PyExc β) :
    (Except.ok a : Except PyExc α) >>= f = f a := rfl

theorem exceptBind_error {α β : Type} (e : PyExc) (f : α → Except PyExc β) :
    (Except.error e : Except PyExc α) >>= f = Except.error e := rfl

theorem exceptPure {α : Type} (a : α) : (pure a : Except PyExc α) = Except.ok a := rfl

theorem any_key_eq_lookup_isSome (k : String) (fs : List (String × Json)) :
    fs.any (fun p => k == p.1) = (fs.lookup k).isSome := by
  induction fs with
  | nil => rfl
  | cons hd tl ih =>
    cases hd with
    | mk a v =>
      cases hk : k == a with
      | true => simp [List.any_cons, List.lookup, hk]
      | false => simp [List.any_cons, List.lookup, hk, ih]

theorem lookup_eq_none_of_any_false {k : String} {fs : List (String × Json)}
    (h : fs.any (fun p => k == p.1) = false) : fs.lookup k = none := by
  rw [any_key_eq_lookup_isSome] at h
  exact Option.not_isSome_iff_eq_none.mp (by simp [h])

theorem lookup_eq_some_of_any_true {k : String} {fs : List (String × Json)}
    (h : fs.any (fun p => k == p.1) = true) : ∃ v, fs.lookup k = some v := by
  rw [any_key_eq_lookup_isSome] at h
  exact Option.isSome_iff_exists.mp h

theorem authEval_response (s : Nat) (b : Option Json) (hs : List (String × String)) :
    applyGenericHandler (authBody (.response s b hs))
      = .verdict (s == 403)
          (if s == 403 then "Got expected 403 Forbidden" else "Expected 403, got " ++ toString s) := by
  by_cases h : s = 403 <;>
    simp [authBody, httpOutcome, exceptBind_ok, exceptPure, h, applyGenericHandler]

theorem fieldErr_passed (sub : String) (s : Nat) (b : Option Json) (hs : List (String × String)) :
    resultPassed (applyGenericHandler (fieldErrBody sub (.response s b hs))) = vFieldErr s b sub := by
  by_cases h4 : s = 400
  case neg =>
    simp [fieldErrBody, httpOutcome, exceptBind_ok, exceptPure, h4, applyGenericHandler,
      resultPassed, vFieldErr]
  case pos =>
    cases b with
    | none =>
      simp [fieldErrBody, httpOutcome, respJson, exceptBind_ok, exceptBind_error, h4,
        applyGenericHandler, isRequestException, resultPassed, vFieldErr]
    | some data =>
      cases data with
      | null =>
        simp [fieldErrBody, httpOutcome, respJson, pyIn, exceptBind_ok, exceptBind_error, h4,
          applyGenericHandler, isRequestException, resultPassed, vFieldErr]
      | bool bb =>
        simp [fieldErrBody, httpOutcome, respJson, pyIn, exceptBind_ok, exceptBind_error, h4,
          applyGenericHandler, isRequestException, resultPassed, vFieldErr]
      | num n =>
        simp [fieldErrBody, httpOutcome, respJson, pyIn, exceptBind_ok, exceptBind_error, h4,
          applyGenericHandler, isRequestException, resultPassed, vFieldErr]
      | str t =>
        cases ht : pyStrIn "error" t <;>
          simp [fieldErrBody, httpOutcome, respJson, pyIn, pySubscript, pyGet, exceptBind_ok,
            exceptBind_error, exceptPure, h4, ht, applyGenericHandler, isRequestException,
            resultPassed, vFieldErr]
      | arr xs =>
        cases hx : xs.any (strEqJson "error") <;>
          simp [fieldErrBody, httpOutcome, respJson, pyIn, pySubscript, pyGet, exceptBind_ok,
            exceptBind_error, exceptPure, h4, hx, applyGenericHandler, isRequestException,
            resultPassed, vFieldErr]
      | obj fs =>
        cases hA : fs.any (fun p => "error" == p.1) with
        | false =>
          have hnone := lookup_eq_none_of_any_false hA
          simp [fieldErrBody, httpOutcome, respJson, pyIn, pyGet, exceptBind_ok,
            exceptBind_error, exceptPure, h4, hA, hnone, applyGenericHandler, resultPassed,
            vFieldErr]
        | true =>
          obtain ⟨ev, hev⟩ := lookup_eq_some_of_any_true hA
          cases ev with
          | null =>
            simp [fieldErrBody, httpOutcome, respJson, pyIn, pySubscript, exceptBind_ok,
              exceptBind_error, exceptPure, h4, hA, hev, applyGenericHandler,
              isRequestException, resultPassed, vFieldErr, pyInTrue]
          | bool bb =>
            simp [fieldErrBody, httpOutcome, respJson, pyIn, pySubscript, exceptBind_ok,
              exceptBind_error, exceptPure, h4, hA, hev, applyGenericHandler,
              isRequestException, resultPassed, vFieldErr, pyInTrue]
          | num n =>
            simp [fieldErrBody, httpOutcome, respJson, pyIn, pySubscript, exceptBind_ok,
              exceptBind_error, exceptPure, h4, hA, hev, applyGenericHandler,
              isRequestException, resultPassed, vFieldErr, pyInTrue]
          | str t =>
            cases hc : pyStrIn sub t <;>
              simp [fieldErrBody, httpOutcome, respJson, pyIn, pySubscript, pyGet,
                exceptBind_ok, exceptBind_error, exceptPure, h4, hA, hev, hc,
                applyGenericHandler, resultPassed, vFieldErr, pyInTrue]
          | arr ys =>
            cases hc : ys.any (strEqJson sub) <;>
              simp [fieldErrBody, httpOutcome, respJson, pyIn, pySubscript, pyGet,
                exceptBind_ok, exceptBind_error, exceptPure, h4, hA, hev, hc,
                applyGenericHandler, resultPassed, vFieldErr, pyInTrue]
          | obj gs =>
            cases hc : gs.any (fun p => sub == p.1) <;>
              simp [fieldErrBody, httpOutcome, respJson, pyIn, pySubscript, pyGet,
                exceptBind_ok, exceptBind_error, exceptPure, h4, hA, hev, hc,
                applyGenericHandler, resultPassed, vFieldErr, pyInTrue]

theorem missingBody_passed (s : Nat) (b : Option Json) (hs : List (String × String)) :
    resultPassed (applyGenericHandler (missingBodyBody (.response s b hs))) = vMissingBody s b := by
  by_cases h4 : s = 400
  case neg =>
    simp [missingBodyBody, httpOutcome, exceptBind_ok, exceptPure, h4, applyGenericHandler,
      resultPassed, vMissingBody]
  case pos =>
    cases b with
    | none =>
      simp [missingBodyBody, httpOutcome, respJson, exceptBind_ok, exceptBind_error, h4,
        applyGenericHandler, isRequestException, resultPassed, vMissingBody]
    | some data =>
      cases data with
      | null =>
        simp [missingBodyBody, httpOutcome, respJson, pyIn, exceptBind_ok, exceptBind_error, h4,
          applyGenericHandler, isRequestException, resultPassed, vMissingBody]
      | bool bb =>
        simp [missingBodyBody, httpOutcome, respJson, pyIn, exceptBind_ok, exceptBind_error, h4,
          applyGenericHandler, isRequestException, resultPassed, vMissingBody]
      | num n =>
        simp [missingBodyBody, httpOutcome, respJson, pyIn, exceptBind_ok, exceptBind_error, h4,
          applyGenericHandler, isRequestException, resultPassed, vMissingBody]
      | str t =>
        cases ht : pyStrIn "error" t <;>
          simp [missingBodyBody, httpOutcome, respJson, pyIn, pySubscript, exceptBind_ok,
            exceptBind_error, exceptPure, h4, ht, applyGenericHandler, isRequestException,
            resultPassed, vMissingBody]
      | arr xs =>
        cases hx : xs.any (strEqJson "error") <;>
          simp [missingBodyBody, httpOutcome, respJson, pyIn, pySubscript, exceptBind_ok,
            exceptBind_error, exceptPure, h4, hx, applyGenericHandler, isRequestException,
            resultPassed, vMissingBody]
      | obj fs =>
        cases hA : fs.any (fun p => "error" == p.1) with
        | false =>
          simp [missingBodyBody, httpOutcome, respJson, pyIn, exceptBind_ok, exceptBind_error,
            exceptPure, h4, hA, applyGenericHandler, resultPassed, vMissingBody]
        | true =>
          obtain ⟨ev, hev⟩ := lookup_eq_some_of_any_true hA
          simp [missingBodyBody, httpOutcome, respJson, pyIn, pySubscript, exceptBind_ok,
            exceptBind_error, exceptPure, h4, hA, hev, applyGenericHandler, resultPassed,
            vMissingBody]

theorem invalidJson_passed (s : Nat) (b : Option Json) (hs : List (String × String)) :
    resultPassed (applyGenericHandler (invalidJsonBody (.response s b hs))) = vInvalidJson s b := by
  by_cases h4 : s = 400
  case neg =>
    simp [invalidJsonBody, httpOutcome, exceptBind_ok, exceptPure, h4, applyGenericHandler,
      resultPassed, vInvalidJson]
  case pos =>
    cases b with
    | none =>
      simp [invalidJsonBody, httpOutcome, respJson, exceptBind_ok, exceptBind_error, h4,
        applyGenericHandler, isRequestException, resultPassed, vInvalidJson]
    | some data =>
      cases data with
      | null =>
        simp [invalidJsonBody, httpOutcome, respJson, pyIn, exceptBind_ok, exceptBind_error, h4,
          applyGenericHandler, isRequestException, resultPassed, vInvalidJson]
      | bool bb =>
        simp [invalidJsonBody, httpOutcome, respJson, pyIn, exceptBind_ok, exceptBind_error, h4,
          applyGenericHandler, isRequestException, resultPassed, vInvalidJson]
      | num n =>
        simp [invalidJsonBody, httpOutcome, respJson, pyIn, exceptBind_ok, exceptBind_error, h4,
          applyGenericHandler, isRequestException, resultPassed, vInvalidJson]
      | str t =>
        cases ht : pyStrIn "error" t <;>
          simp [invalidJsonBody, httpOutcome, respJson, pyIn, pySubscript, pyGet, exceptBind_ok,
            exceptBind_error, exceptPure, h4, ht, applyGenericHandler, isRequestException,
            resultPassed, vInvalidJson]
      | arr xs =>
        cases hx : xs.any (strEqJson "error") <;>
          simp [invalidJsonBody, httpOutcome, respJson, pyIn, pySubscript, pyGet, exceptBind_ok,
            exceptBind_error, exceptPure, h4, hx, applyGenericHandler, isRequestException,
            resultPassed, vInvalidJson]
      | obj fs =>
        cases hA : fs.any (fun p => "error" == p.1) with
        | false =>
          have hnone := lookup_eq_none_of_any_false hA
          simp [invalidJsonBody, httpOutcome, respJson, pyIn, pyGet, exceptBind_ok,
            exceptBind_error, exceptPure, h4, hA, hnone, applyGenericHandler, resultPassed,
            vInvalidJson]
        | true =>
          obtain ⟨ev, hev⟩ := lookup_eq_some_of_any_true hA
          cases ev with
          | null =>
            simp [invalidJsonBody, httpOutcome, respJson, pyIn, pySubscript, exceptBind_ok,
              exceptBind_error, exceptPure, h4, hA, hev, applyGenericHandler,
              isRequestException, resultPassed, vInvalidJson, memberCheckOk]
          | bool bb =>
            simp [invalidJsonBody, httpOutcome, respJson, pyIn, pySubscript, exceptBind_ok,
              exceptBind_error, exceptPure, h4, hA, hev, applyGenericHandler,
              isRequestException, resultPassed, vInvalidJson, memberCheckOk]
          | num n =>
            simp [invalidJsonBody, httpOutcome, respJson, pyIn, pySubscript, exceptBind_ok,
              exceptBind_error, exceptPure, h4, hA, hev, applyGenericHandler,
              isRequestException, resultPassed, vInvalidJson, memberCheckOk]
          | str t =>
            cases hc : pyStrIn "Invalid JSON" t <;>
              simp [invalidJsonBody, httpOutcome, respJson, pyIn, pySubscript, pyGet,
                exceptBind_ok, exceptBind_error, exceptPure, h4, hA, hev, hc,
                applyGenericHandler, resultPassed, vInvalidJson, memberCheckOk]
          | arr ys =>
            cases hc : ys.any (strEqJson "Invalid JSON") <;>
              simp [invalidJsonBody, httpOutcome, respJson, pyIn, pySubscript, pyGet,
                exceptBind_ok, exceptBind_error, exceptPure, h4, hA, hev, hc,
                applyGenericHandler, resultPassed, vInvalidJson, memberCheckOk]
          | obj gs =>
            cases hc : gs.any (fun p => "Invalid JSON" == p.1) <;>
              simp [invalidJsonBody, httpOutcome, respJson, pyIn, pySubscript, pyGet,
                exceptBind_ok, exceptBind_error, exceptPure, h4, hA, hev, hc,
                applyGenericHandler, resultPassed, vInvalidJson, memberCheckOk]

theorem success_passed (s : Nat) (b : Option Json) (hs : List (String × String)) :
    resultPassed (applySuccessHandlers (successBody (.response s b hs))) = vSuccess s b := by
  by_cases h2 : s = 200
  case neg =>
    simp [successBody, httpOutcome, exceptBind_ok, exceptPure, h2, applySuccessHandlers,
      resultPassed, vSuccess]
  case pos =>
    cases b with
    | none =>
      simp [successBody, httpOutcome, respJson, exceptBind_ok, exceptBind_error, h2,
        applySuccessHandlers, isRequestException, resultPassed, vSuccess]
    | some data =>
      cases data with
      | null =>
        simp [successBody, httpOutcome, respJson, pyIn, exceptBind_ok, exceptBind_error, h2,
          applySuccessHandlers, isRequestException, resultPassed, vSuccess]
      | bool bb =>
        simp [successBody, httpOutcome, respJson, pyIn, exceptBind_ok, exceptBind_error, h2,
          applySuccessHandlers, isRequestException, resultPassed, vSuccess]
      | num n =>
        simp [successBody, httpOutcome, respJson, pyIn, exceptBind_ok, exceptBind_error, h2,
          applySuccessHandlers, isRequestException, resultPassed, vSuccess]
      | str t =>
        cases ht : pyStrIn "assistant" t <;>
          simp [successBody, httpOutcome, respJson, pyIn, pySubscript, exceptBind_ok,
            exceptBind_error, exceptPure, h2, ht, applySuccessHandlers, isRequestException,
            resultPassed, vSuccess]
      | arr xs =>
        cases hx : xs.any (strEqJson "assistant") <;>
          simp [successBody, httpOutcome, respJson, pyIn, pySubscript, exceptBind_ok,
            exceptBind_error, exceptPure, h2, hx, applySuccessHandlers, isRequestException,
            resultPassed, vSuccess]
      | obj fs =>
        cases hA : fs.any (fun p => "assistant" == p.1) with
        | false =>
          have hnone := lookup_eq_none_of_any_false hA
          simp [successBody, httpOutcome, respJson, pyIn, exceptBind_ok, exceptBind_error,
            exceptPure, h2, hA, hnone, applySuccessHandlers, resultPassed, vSuccess]
        | true =>
          obtain ⟨av, hav⟩ := lookup_eq_some_of_any_true hA
          cases av with
          | null =>
            simp [successBody, httpOutcome, respJson, pyIn, pySubscript, exceptBind_ok,
              exceptBind_error, exceptPure, h2, hA, hav, applySuccessHandlers,
              isRequestException, resultPassed, vSuccess]
          | bool bb =>
            simp [successBody, httpOutcome, respJson, pyIn, pySubscript, exceptBind_ok,
              exceptBind_error, exceptPure, h2, hA, hav, applySuccessHandlers,
              isRequestException, resultPassed, vSuccess]
          | num n =>
            simp [successBody, httpOutcome, respJson, pyIn, pySubscript, exceptBind_ok,
              exceptBind_error, exceptPure, h2, hA, hav, applySuccessHandlers,
              isRequestException, resultPassed, vSuccess]
          | str t =>
            cases hc : pyStrIn "content" t <;>
              simp [successBody, httpOutcome, respJson, pyIn, pySubscript, exceptBind_ok,
                exceptBind_error, exceptPure, h2, hA, hav, hc, applySuccessHandlers,
                isRequestException, resultPassed, vSuccess]
          | arr ys =>
            cases hc : ys.any (strEqJson "content") <;>
              simp [successBody, httpOutcome, respJson, pyIn, pySubscript, exceptBind_ok,
                exceptBind_error, exceptPure, h2, hA, hav, hc, applySuccessHandlers,
                isRequestException, resultPassed, vSuccess]
          | obj gs =>
            cases hC : gs.any (fun p => "content" == p.1) with
            | false =>
              have hnone := lookup_eq_none_of_any_false hC
              simp [successBody, httpOutcome, respJson, pyIn, pySubscript, exceptBind_ok,
                exceptBind_error, exceptPure, h2, hA, hav, hC, hnone, applySuccessHandlers,
                resultPassed, vSuccess]
            | true =>
              obtain ⟨cv, hcv⟩ := lookup_eq_some_of_any_true hC
              cases cv <;>
                simp [successBody, httpOutcome, respJson, pyIn, pySubscript, pySlice50,
                  exceptBind_ok, exceptBind_error, exceptPure, h2, hA, hav, hC, hcv,
                  applySuccessHandlers, isRequestException, resultPassed, vSuccess, sliceOk]

theorem recordResult_eq (acc : RunResults) (name : String) (r : TestResult) :
    recordResult acc name r =
      { passed := acc.passed + (if resultPassed r then 1 else 0),
        failed := acc.failed + (if resultPassed r then 0 else 1),
        details := acc.details ++ [(name, resultPassed r)] } := by
  cases r with
  | verdict b d => cases b <;> simp [recordResult, resultPassed]
  | raised e => simp [recordResult, resultPassed]

theorem runFold_spec (url apiKey : String) (net : HttpRequest → NetOutcome) :
    ∀ (ts : List (String × TestFun)) (acc : RunResults),
      (ts.foldl (fun a nf => recordResult a nf.1 (nf.2 url apiKey net)) acc).details
          = acc.details ++ ts.map (fun nf => (nf.1, resultPassed (nf.2 url apiKey net)))
        ∧ (ts.foldl (fun a nf => recordResult a nf.1 (nf.2 url apiKey net)) acc).passed
          = acc.passed + ts.countP (fun nf => resultPassed (nf.2 url apiKey net))
        ∧ (ts.foldl (fun a nf => recordResult a nf.1 (nf.2 url apiKey net)) acc).failed
          = acc.failed + ts.countP (fun nf => !resultPassed (nf.2 url apiKey net)) := by
  intro ts
  induction ts with
  | nil => intro acc; refine ⟨by simp, by simp, by simp⟩
  | cons hd tl ih =>
    intro acc
    obtain ⟨ihd, ihp, ihf⟩ := ih (recordResult acc hd.1 (hd.2 url apiKey net))
    rw [List.foldl_cons]
    refine ⟨?_, ?_, ?_⟩
    · rw [ihd, recordResult_eq]
      simp
    · rw [ihp, recordResult_eq, List.countP_cons]
      cases hr : resultPassed (hd.2 url apiKey net) <;> simp [hr] <;> omega
    · rw [ihf, recordResult_eq, List.countP_cons]
      cases hr : resultPassed (hd.2 url apiKey net) <;> simp [hr] <;> omega

theorem runAllTests_details (url apiKey : String) (net : HttpRequest → NetOutcome) :
    (runAllTests url apiKey net).details
      = registry.map (fun nf => (nf.1, resultPassed (nf.2 url apiKey net))) := by
  have h := (runFold_spec url apiKey net registry
    { passed := 0, failed := 0, details := [] }).1
  simpa [runAllTests] using h

theorem runAllTests_passed (url apiKey : String) (net : HttpRequest → NetOutcome) :
    (runAllTests url apiKey net).passed
      = registry.countP (fun nf => resultPassed (nf.2 url apiKey net)) := by
  have h := (runFold_spec url apiKey net registry
    { passed := 0, failed := 0, details := [] }).2.1
  simpa [runAllTests] using h

theorem runAllTests_failed (url apiKey : String) (net : HttpRequest → NetOutcome) :
    (runAllTests url apiKey net).failed
      = registry.countP (fun nf => !resultPassed (nf.2 url apiKey net)) := by
  have h := (runFold_spec url apiKey net registry
    { passed := 0, failed := 0, details := [] }).2.2
  simpa [runAllTests] using h

theorem getApiKey_eq (o : Option String) :
    getApiKey o =
      if falsy o then .error "API_KEY environment variable is not set." else .ok (o.getD "") := by
  cases o with
  | none => rfl
  | some k => by_cases hk : k = "" <;> simp [getApiKey, falsy, hk]

theorem getApiUrl_eq (env : String) (p t : Option String) :
    getApiUrl env p t =
      if env == "prod" then urlFromSource p "PROD_API_URL environment variable is not set."
      else urlFromSource t "TEST_API_URL environment variable is not set." := by
  by_cases he : env = "prod"
  case pos =>
    cases p with
    | none => simp [getApiUrl, urlFromSource, falsy, he]
    | some u => by_cases hu : u = "" <;> simp [getApiUrl, urlFromSource, falsy, he, hu]
  case neg =>
    cases t with
    | none => simp [getApiUrl, urlFromSource, falsy, he]
    | some u => by_cases hu : u = "" <;> simp [getApiUrl, urlFromSource, falsy, he, hu]

/-- C1 (counterexample): the claimed pass rule is violated by the code.
The invalid-json scenario returns passed=true on a 400 response whose
parsed JSON object has no `error` key at all, and the missing-body
scenario returns passed=true on a 400 response whose `error` value is an
arbitrary string with no scenario-specific substring. -/
theorem claim1_validation_rule_counterexample :
    invalidJsonEval (.response 400 (some (.obj [])) [])
        = .verdict true "Got 400 with error: unknown"
      ∧ hasKeyB (.obj []) "error" = false
      ∧ missingBodyEval (.response 400 (some (.obj [("error", .str "nope")])) [])
        = .verdict true "Got expected error: nope" :=
  ⟨rfl, rfl, rfl⟩

/-- C1 (amended): for every response, the five validation scenarios pass
exactly as follows: missing-threadid, messages-not-array and
empty-messages pass iff the status is 400 and the parsed JSON object's
`error` value contains the scenario substring ("threadId", "array",
"empty"); missing-body passes iff the status is 400 and the parsed JSON
object merely carries an `error` key (no substring check); invalid-json
passes iff the status is 400 and the body parses as a JSON object whose
`error` value, if any, supports the membership test (the `error` key is
not required). -/
theorem claim1_validation_verdicts (s : Nat) (b : Option Json) (hs : List (String × String)) :
    resultPassed (missingBodyEval (.response s b hs)) = vMissingBody s b
      ∧ resultPassed (invalidJsonEval (.response s b hs)) = vInvalidJson s b
      ∧ resultPassed (missingThreadIdEval (.response s b hs)) = vFieldErr s b "threadId"
      ∧ resultPassed (notArrayEval (.response s b hs)) = vFieldErr s b "array"
      ∧ resultPassed (emptyMessagesEval (.response s b hs)) = vFieldErr s b "empty" :=
  ⟨missingBody_passed s b hs, invalidJson_passed s b hs,
   fieldErr_passed "threadId" s b hs, fieldErr_passed "array" s b hs,
   fieldErr_passed "empty" s b hs⟩

/-- C2 (counterexample): the second half of the claim fails: a 400
response whose parsed JSON object lacks an `error` key still yields
passed=true in the invalid-json scenario. -/
theorem claim2_no_error_key_counterexample :
    invalidJsonEval (.response 400 (some (.obj [("status", .str "bad")])) [])
        = .verdict true "Got 400 with error: unknown"
      ∧ hasKeyB (.obj [("status", .str "bad")]) "error" = false :=
  ⟨rfl, rfl⟩

/-- C2 (amended): a 400 response whose body parses as a JSON object always
yields passed=true in the invalid-json scenario, whether or not an
`error` key is present and whatever its string value; the only exception
is an `error` value on which Python's membership test raises (null, a
boolean or a number), which escapes as a TypeError and so does not yield
passed=true. -/
theorem claim2_invalid_json_permissive (fs : List (String × Json)) (hs : List (String × String)) :
    resultPassed (invalidJsonEval (.response 400 (some (.obj fs)) hs))
      = (match fs.lookup "error" with
         | some ev => memberCheckOk ev
         | none => true) := by
  have h := invalidJson_passed 400 (some (.obj fs)) hs
  simpa [vInvalidJson] using h

/-- C3 (counterexample): the claimed iff fails: a 200 response whose
parsed object contains the key path assistant.content with a numeric
content value makes the excerpt slice raise a TypeError, which escapes
the scenario's handlers, so the scenario does not yield passed=true. -/
theorem claim3_success_counterexample :
    successEval (.response 200 (some (.obj [("assistant", .obj [("content", .num 5)])])) [])
        = .raised .typeError
      ∧ resultPassed
          (successEval (.response 200 (some (.obj [("assistant", .obj [("content", .num 5)])])) []))
        = false :=
  ⟨rfl, rfl⟩

/-- C3 (amended): the success scenario yields passed=true iff the status
is 200 and the body parses as a JSON object whose `assistant` value is an
object carrying a `content` key whose value is sliceable (a string or
array, so the detail excerpt can be built); every other response yields
passed=false or, when building the excerpt raises, an escaped TypeError
that the Runner converts to a fail verdict. -/
theorem claim3_success_verdict (s : Nat) (b : Option Json) (hs : List (String × String)) :
    resultPassed (successEval (.response s b hs)) = vSuccess s b :=
  success_passed s b hs

/-- C9: the two authentication scenarios pass exactly on status 403: for
every response status, body and headers the verdict's boolean is
`status == 403` and its detail depends only on the status, so body
content never influences the verdict. -/
theorem claim9_auth_status_only (s : Nat) (b : Option Json) (hs : List (String × String)) :
    missingKeyEval (.response s b hs)
        = .verdict (s == 403)
            (if s == 403 then "Got expected 403 Forbidden" else "Expected 403, got " ++ toString s)
      ∧ invalidKeyEval (.response s b hs)
        = .verdict (s == 403)
            (if s == 403 then "Got expected 403 Forbidden" else "Expected 403, got " ++ toString s) :=
  ⟨authEval_response s b hs, authEval_response s b hs⟩

/-- C4: a timeout during any scenario's network call is caught inside that
scenario and becomes a fail verdict, never an escaped exception: the
success scenario's dedicated Timeout handler reports "Request timed out",
the other eight report "Request failed:" followed by the timeout
exception's own message; under an all-timeout collaborator the full run
records nine failures and no pass; and every request built by every
scenario carries the fixed timeout of 30. -/
theorem claim4_timeout_handling (url apiKey msg : String) :
    testSuccessRequest url apiKey (fun _ => .timeout msg) = .verdict false "Request timed out"
      ∧ testMissingBody url apiKey (fun _ => .timeout msg)
          = .verdict false ("Request failed: " ++ msg)
      ∧ testInvalidJson url apiKey (fun _ => .timeout msg)
          = .verdict false ("Request failed: " ++ msg)
      ∧ testMissingThreadId url apiKey (fun _ => .timeout msg)
          = .verdict false ("Request failed: " ++ msg)
      ∧ testMessagesNotArray url apiKey (fun _ => .timeout msg)
          = .verdict false ("Request failed: " ++ msg)
      ∧ testEmptyMessages url apiKey (fun _ => .timeout msg)
          = .verdict false ("Request failed: " ++ msg)
      ∧ testMissingApiKey url apiKey (fun _ => .timeout msg)
          = .verdict false ("Request failed: " ++ msg)
      ∧ testInvalidApiKey url apiKey (fun _ => .timeout msg)
          = .verdict false ("Request failed: " ++ msg)
      ∧ testCorsPreflight url apiKey (fun _ => .timeout msg)
          = .verdict false ("Request failed: " ++ msg)
      ∧ (runAllTests url apiKey (fun _ => .timeout msg)).passed = 0
      ∧ (runAllTests url apiKey (fun _ => .timeout msg)).failed = 9
      ∧ ([successReq url apiKey, missingBodyReq url apiKey, invalidJsonReq url apiKey,
          missingThreadIdReq url apiKey, notArrayReq url apiKey, emptyMessagesReq url apiKey,
          missingKeyReq url apiKey, invalidKeyReq url apiKey, corsReq url apiKey].all
            (fun r => r.timeout == 30)) = true :=
  ⟨rfl, rfl, rfl, rfl, rfl, rfl, rfl, rfl, rfl, rfl, rfl, rfl⟩

/-- C5: after any full run, the runner has recorded exactly one verdict
per scenario — nine, carrying the registry's scenario names in registry
order — and the pass count plus the fail count equals the number of
scenarios run. -/
theorem claim5_run_summary (url apiKey : String) (net : HttpRequest → NetOutcome) :
    (runAllTests url apiKey net).details.length = 9
      ∧ (runAllTests url apiKey net).passed + (runAllTests url apiKey net).failed = 9
      ∧ (runAllTests url apiKey net).details.map Prod.fst
          = ["Success Request", "Missing Body", "Invalid JSON", "Missing threadId",
             "Messages Not Array", "Empty Messages", "Missing API Key", "Invalid API Key",
             "CORS Preflight"] := by
  refine ⟨?_, ?_, ?_⟩
  · rw [runAllTests_details]; rfl
  · rw [runAllTests_passed, runAllTests_failed]
    have h : ∀ (l : List (String × TestFun)) (p : (String × TestFun) → Bool),
        l.countP p + l.countP (fun nf => !p nf) = l.length := by
      intro l p
      induction l with
      | nil => rfl
      | cons hd tl ih =>
        rw [List.countP_cons, List.countP_cons]
        cases hp : p hd <;> simp [hp] <;> omega
    rw [h registry (fun nf => resultPassed (nf.2 url apiKey net))]; rfl
  · rw [runAllTests_details, List.map_map]; rfl

/-- C6: when the test function of the k-th scenario lets an exception
escape (one not classified as a transport or response-shape failure), the
runner's `except Exception` arm records a fail verdict for that scenario
under its registry name, and the run still records a verdict for all nine
scenarios. -/
theorem claim6_runner_catches (url apiKey : String) (net : HttpRequest → NetOutcome)
    (k : Nat) (e : PyExc) (hk : k < registry.length)
    (hr : (registry.get ⟨k, hk⟩).2 url apiKey net = .raised e) :
    (runAllTests url apiKey net).details[k]? = some ((registry.get ⟨k, hk⟩).1, false)
      ∧ (runAllTests url apiKey net).details.length = registry.length := by
  constructor
  · have hr2 : registry[k].2 url apiKey net = .raised e := hr
    rw [runAllTests_details, List.getElem?_map, List.getElem?_eq_getElem hk]
    simp [hr2, resultPassed]
  · rw [runAllTests_details, List.length_map]

/-- C6 (witness): a collaborator answering 400 with the JSON body `5`
makes the missing-threadid test raise a TypeError (membership test on an
integer); the full run still records nine verdicts with a fail at index
3. -/
theorem claim6_runner_catches_witness :
    (runAllTests "u" "k" (fun _ => .response 400 (some (.num 5)) [])).details[3]?
        = some ("Missing threadId", false)
      ∧ (runAllTests "u" "k" (fun _ => .response 400 (some (.num 5)) [])).details.length
        = registry.length :=
  claim6_runner_catches "u" "k" (fun _ => .response 400 (some (.num 5)) []) 3 .typeError
    (by decide) rfl

/-- C8: every request built by `make_request` carries the default headers
Content-Type: application/json and X-Api-Key with the ambient credential;
a scenario's headers field can override the value of either default and,
because the requests library omits a header whose value is None, can also
omit either default. -/
theorem claim8_request_builder_headers (url apiKey : String) (payload : Json) :
    (makeRequest url apiKey payload none).headers
        = [("Content-Type", "application/json"), ("X-Api-Key", apiKey)]
      ∧ (makeRequest url apiKey payload (some [("Content-Type", some "text/plain")])).headers
        = [("Content-Type", "text/plain"), ("X-Api-Key", apiKey)]
      ∧ (makeRequest url apiKey payload (some [("X-Api-Key", some "other-key")])).headers
        = [("Content-Type", "application/json"), ("X-Api-Key", "other-key")]
      ∧ (makeRequest url apiKey payload (some [("Content-Type", none)])).headers
        = [("X-Api-Key", apiKey)]
      ∧ (makeRequest url apiKey payload (some [("X-Api-Key", none)])).headers
        = [("Content-Type", "application/json")] :=
  ⟨rfl, rfl, rfl, rfl, rfl⟩

/-- C10: every environment flag other than "prod" resolves the base URL
from the TEST_API_URL source, "prod" alone selects the PROD_API_URL
source, and resolution errors exactly when the selected source is unset
or empty. -/
theorem claim10_url_resolution (env : String) (p t : Option String) :
    (env ≠ "prod" →
        getApiUrl env p t = urlFromSource t "TEST_API_URL environment variable is not set.")
      ∧ getApiUrl "prod" p t = urlFromSource p "PROD_API_URL environment variable is not set."
      ∧ isErr (getApiUrl env p t) = falsy (if env == "prod" then p else t) := by
  have hlem : ∀ (src : Option String) (msg : String), isErr (urlFromSource src msg) = falsy src := by
    intro src msg
    by_cases hf : falsy src <;> simp [urlFromSource, isErr, hf]
  refine ⟨?_, ?_, ?_⟩
  · intro h
    rw [getApiUrl_eq]
    simp [h]
  · rw [getApiUrl_eq]
    simp
  · rw [getApiUrl_eq]
    by_cases he : env = "prod" <;> simp [he, hlem]

/-- C10 (witness): an environment value that is neither of the two named
environments still resolves from the test source. -/
theorem claim10_url_resolution_witness :
    getApiUrl "staging" (some "p.example") (some "t.example")
      = urlFromSource (some "t.example") "TEST_API_URL environment variable is not set." :=
  (claim10_url_resolution "staging" (some "p.example") (some "t.example")).1 (by decide)

/-- C7: under valid command-line choices, a configuration error (falsy
credential or falsy selected URL source) exits with code 1 before any
scenario runs; otherwise the exit code is 0 exactly when scenarios ran
and every recorded verdict passed, and is always 0 or 1. -/
theorem claim7_exit_code (env sel : String) (apiKeyEnv prodUrl testUrl : Option String)
    (net : HttpRequest → NetOutcome)
    (h1 : envChoices.contains env = true) (h2 : testChoices.contains sel = true) :
    (configErrB apiKeyEnv env prodUrl testUrl = true →
        mainRun env sel apiKeyEnv prodUrl testUrl net = { code := 1, verdicts := [] })
      ∧ ((mainRun env sel apiKeyEnv prodUrl testUrl net).code = 0 ↔
          (configErrB apiKeyEnv env prodUrl testUrl = false
            ∧ (mainRun env sel apiKeyEnv prodUrl testUrl net).verdicts ≠ []
            ∧ ∀ v ∈ (mainRun env sel apiKeyEnv prodUrl testUrl net).verdicts, v.2 = true))
      ∧ (configErrB apiKeyEnv env prodUrl testUrl = false →
          (mainRun env sel apiKeyEnv prodUrl testUrl net).code = 0
            ∨ (mainRun env sel apiKeyEnv prodUrl testUrl net).code = 1) := by
  have h1m : env ∈ envChoices := by simpa using h1
  have h2m : sel ∈ testChoices := by simpa using h2
  by_cases hkf : falsy apiKeyEnv
  case pos =>
    have hkey : getApiKey apiKeyEnv = .error "API_KEY environment variable is not set." := by
      rw [getApiKey_eq]; simp [hkf]
    have hmain : mainRun env sel apiKeyEnv prodUrl testUrl net = { code := 1, verdicts := [] } := by
      simp [mainRun, h1m, h2m, hkey]
    have hcfg : configErrB apiKeyEnv env prodUrl testUrl = true := by simp [configErrB, hkf]
    refine ⟨fun _ => hmain, ?_, ?_⟩
    · rw [hmain]
      simp [hcfg]
    · intro hc
      rw [hcfg] at hc
      exact absurd hc (by simp)
  case neg =>
    by_cases huf : falsy (if env == "prod" then prodUrl else testUrl)
    case pos =>
      have hurl : ∃ m, getApiUrl env prodUrl testUrl = .error m := by
        rw [getApiUrl_eq]
        by_cases hpe : env = "prod" <;>
          simp [hpe] at huf ⊢ <;> simp [urlFromSource, huf]
      obtain ⟨m, hurl⟩ := hurl
      have hkey : getApiKey apiKeyEnv = .ok (apiKeyEnv.getD "") := by
        rw [getApiKey_eq]; simp [hkf]
      have hmain : mainRun env sel apiKeyEnv prodUrl testUrl net = { code := 1, verdicts := [] } := by
        simp [mainRun, h1m, h2m, hkey, hurl]
      have hcfg : configErrB apiKeyEnv env prodUrl testUrl = true := by
        simp only [configErrB]
        rw [huf]
        simp
      refine ⟨fun _ => hmain, ?_, ?_⟩
      · rw [hmain]
        simp [hcfg]
      · intro hc
        rw [hcfg] at hc
        exact absurd hc (by simp)
    case neg =>
      have hcfg : configErrB apiKeyEnv env prodUrl testUrl = false := by
        simp [configErrB] at hkf huf ⊢
        exact ⟨hkf, huf⟩
      have hkey : getApiKey apiKeyEnv = .ok (apiKeyEnv.getD "") := by
        rw [getApiKey_eq]; simp [hkf]
      have hurl : ∃ u, getApiUrl env prodUrl testUrl = .ok u := by
        rw [getApiUrl_eq]
        by_cases hpe : env = "prod" <;>
          simp [hpe] at huf ⊢ <;> simp [urlFromSource, huf]
      obtain ⟨u, hurl⟩ := hurl
      by_cases hsel : sel = "all"
      case pos =>
        subst hsel
        have hmain : mainRun env "all" apiKeyEnv prodUrl testUrl net =
            { code := if (runAllTests u (apiKeyEnv.getD "") net).failed > 0 then 1 else 0,
              verdicts := (runAllTests u (apiKeyEnv.getD "") net).details } := by
          simp [mainRun, h1m, h2m, hkey, hurl]
        have hne : (runAllTests u (apiKeyEnv.getD "") net).details ≠ [] := by
          rw [runAllTests_details]
          simp [registry]
        have hiff : (runAllTests u (apiKeyEnv.getD "") net).failed = 0 ↔
            ∀ v ∈ (runAllTests u (apiKeyEnv.getD "") net).details, v.2 = true := by
          rw [runAllTests_failed, runAllTests_details, List.countP_eq_zero]
          constructor
          · intro h v hv
            obtain ⟨nf, hnf, rfl⟩ := List.mem_map.mp hv
            simpa using h nf hnf
          · intro h nf hnf
            have := h (nf.1, resultPassed (nf.2 u (apiKeyEnv.getD "") net))
              (List.mem_map.mpr ⟨nf, hnf, rfl⟩)
            simpa using this
        refine ⟨?_, ?_, ?_⟩
        · intro hc
          rw [hcfg] at hc
          exact absurd hc (by simp)
        · rw [hmain]
          show (if (runAllTests u (apiKeyEnv.getD "") net).failed > 0 then 1 else 0) = 0 ↔
            (configErrB apiKeyEnv env prodUrl testUrl = false
              ∧ (runAllTests u (apiKeyEnv.getD "") net).details ≠ []
              ∧ ∀ v ∈ (runAllTests u (apiKeyEnv.getD "") net).details, v.2 = true)
          by_cases hz : (runAllTests u (apiKeyEnv.getD "") net).failed = 0
          · rw [if_neg (by omega)]
            exact ⟨fun _ => ⟨hcfg, hne, hiff.mp hz⟩, fun _ => rfl⟩
          · rw [if_pos (Nat.pos_of_ne_zero hz)]
            constructor
            · intro h
              exact absurd h one_ne_zero
            · intro h
              exact absurd (hiff.mpr h.2.2) hz
        · intro _
          rw [hmain]
          show (if (runAllTests u (apiKeyEnv.getD "") net).failed > 0 then 1 else 0) = 0
            ∨ (if (runAllTests u (apiKeyEnv.getD "") net).failed > 0 then 1 else 0) = 1
          by_cases hz : (runAllTests u (apiKeyEnv.getD "") net).failed = 0
          · left
            rw [if_neg (by omega)]
          · right
            rw [if_pos (Nat.pos_of_ne_zero hz)]
      case neg =>
        have hmem := h2m
        simp only [testChoices, List.mem_cons, List.not_mem_nil, or_false] at hmem
        rcases hmem with h | h | h | h | h | h | h | h | h | h
        all_goals first
          | exact absurd h hsel
          | (subst h
             refine ⟨fun hc => absurd (hcfg ▸ hc) (by simp), ?_, ?_⟩ <;>
               (simp [mainRun, h1m, h2m, hkey, hurl, testMap] ;
                split <;>
                  first
                    | (rename_i bb dd ; cases bb <;> simp [hcfg])
                    | simp [hcfg]))

/-- C7 (witness): a concrete valid invocation (test environment, full
run, credential set, test URL set, every call timing out) instantiates
the exit-code contract. -/
theorem claim7_exit_code_witness :
    (configErrB (some "k") "test" none (some "http://t.example") = true →
        mainRun "test" "all" (some "k") none (some "http://t.example") (fun _ => .timeout "t-o")
          = { code := 1, verdicts := [] })
      ∧ ((mainRun "test" "all" (some "k") none (some "http://t.example")
            (fun _ => .timeout "t-o")).code = 0 ↔
          (configErrB (some "k") "test" none (some "http://t.example") = false
            ∧ (mainRun "test" "all" (some "k") none (some "http://t.example")
                (fun _ => .timeout "t-o")).verdicts ≠ []
            ∧ ∀ v ∈ (mainRun "test" "all" (some "k") none (some "http://t.example")
                (fun _ => .timeout "t-o")).verdicts, v.2 = true))
      ∧ (configErrB (some "k") "test" none (some "http://t.example") = false →
          (mainRun "test" "all" (some "k") none (some "http://t.example")
              (fun _ => .timeout "t-o")).code = 0
            ∨ (mainRun "test" "all" (some "k") none (some "http://t.example")
                (fun _ => .timeout "t-o")).code = 1) :=
  claim7_exit_code "test" "all" (some "k") none (some "http://t.example")
    (fun _ => .timeout "t-o") (by decide) (by decide)

example :
    resultPassed (successEval
      (.response 200 (some (.obj [("assistant", .obj [("content", .str "Hello test")])])) []))
      = true := rfl

example :
    resultPassed (missingThreadIdEval
      (.response 400 (some (.obj [("error", .str "threadId is required")])) []))
      = true := rfl

example :
    resultPassed (missingThreadIdEval
      (.response 200 (some (.obj [("error", .str "threadId is required")])) []))
      = false := rfl

example :
    missingKeyEval (.response 403 (some (.obj [("whatever", .null)])) [])
      = .verdict true "Got expected 403 Forbidden" := rfl

